import Mathlib

/-!
Verification development for the example repository
`example_build_custom_bee_agent` (TypeScript), file
`src/custom_agent_role_instruction_no_tools.ts` (script 1) together with the
second example script (script 2, the BeeAgent with tools).

The repository configures an external agent framework.  The code authored in
the repository itself is: the response schema handed to the structured-output
driver, the system-prompt template, the `messagesToPrompt` conversion, the
`_run` method of `CustomGermanAgent`, and the top-level try/catch script
bodies.  Those parts are embedded below directly from the source.  Behaviour
of the external framework that the claims depend on (zod object validation,
the template placeholder substitution, the structured-output driver's retry
loop, the memory's `add`) is modelled from the specification's description of
the collaborator contract; each such definition says so in its doc comment.
-/

namespace BeeExample

/-! ## JSON values and the zod response schema of `_run` -/

/-- JSON values, used to model raw model responses that the external
validation layer (zod) checks against the response schema. -/
inductive Json where
  | str (s : String)
  | num (n : Int)
  | bool (b : Bool)
  | null
  | arr (elems : List Json)
  | obj (fields : List (String × Json))

/-- Field lookup in a JSON object (JavaScript object property access). -/
def lookupField : List (String × Json) → String → Option Json
  | [], _ => none
  | (k, v) :: rest, key => if k = key then some v else lookupField rest key

/-- Whether a JSON value passes `z.string()` (any string, empty included). -/
def isZodString : Json → Bool
  | .str _ => true
  | _ => false

/-- The response schema passed by `CustomGermanAgent._run` to
`driver.generate`: `z.object` with fields `thought : z.string()` and
`final_answer : z.string()` (source lines 97-104).  zod object validation
requires each declared field to be present with the declared type; the
`describe` annotations do not constrain values. -/
def responseSchemaAccepts : Json → Bool
  | .obj fields =>
      (match lookupField fields "thought" with
       | some v => isZodString v
       | none => false)
      &&
      (match lookupField fields "final_answer" with
       | some v => isZodString v
       | none => false)
  | _ => false

/-- The structured state parsed out of a valid model response. -/
structure Parsed where
  thought : String
  final_answer : String
deriving DecidableEq

/-- Parsing a raw model response against the response schema: succeeds
exactly when both declared fields are present as strings. -/
def parseResponse : Json → Option Parsed
  | .obj fields =>
      match lookupField fields "thought", lookupField fields "final_answer" with
      | some (.str t), some (.str f) => some { thought := t, final_answer := f }
      | _, _ => none
  | _ => none

/-! ## Messages -/

/-- A chat message as used by the scripts: a role string and a text.
`BaseMessage.of({role, text})`. -/
structure Message where
  role : String
  text : String
deriving DecidableEq

/-- The assistant message `_run` builds from the parsed result
(source lines 112-115). -/
def mkAssistantMessage (text : String) : Message :=
  { role := "assistant", text := text }

/-! ## The system prompt template of `CustomGermanAgent` (source lines 65-83) -/

/-- The template text of `CustomGermanAgent.systemPrompt`, transcribed
verbatim from the source (braces of the placeholder written escaped). -/
def systemPromptTemplateText : String :=
  "## System Instructions\n\nYou are a knowledgeable and friendly AI assistant named Thomas.\nYour role is to help users by answering their questions, providing information, and offering guidance to the best of your abilities. When responding, use a warm and professional tone, and break down complex topics into easy-to-understand explanations. \nIf you are unsure about an answer, it\x27s okay to say you don\x27t know rather than guessing.\nYou must understand all languages but you must answer always in proper german language.\nIf there are terms that are technical topics in English and they are commonly known in English, don\x27t translate the keywords.\n\n```\n\x7b\x7bschema\x7d\x7d\n```\n\nIMPORTANT: Every answer must be a parsable JSON string without additional output.\n"

/-- The placeholder occurring once in the template. -/
def schemaPlaceholder : String := "\x7b\x7bschema\x7d\x7d"

/-- The template text strictly before the placeholder. -/
def sysPromptPre : String :=
  "## System Instructions\n\nYou are a knowledgeable and friendly AI assistant named Thomas.\nYour role is to help users by answering their questions, providing information, and offering guidance to the best of your abilities. When responding, use a warm and professional tone, and break down complex topics into easy-to-understand explanations. \nIf you are unsure about an answer, it\x27s okay to say you don\x27t know rather than guessing.\nYou must understand all languages but you must answer always in proper german language.\nIf there are terms that are technical topics in English and they are commonly known in English, don\x27t translate the keywords.\n\n```\n"

/-- The template text strictly after the placeholder. -/
def sysPromptSuf : String :=
  "\n```\n\nIMPORTANT: Every answer must be a parsable JSON string without additional output.\n"

/-- Rendering `CustomGermanAgent.systemPrompt` with an input `{schema}`.
The template input is validated against `z.object({schema: z.string().min(1)})`
(source lines 66-68), so an empty schema string is rejected (`none`);
otherwise the placeholder substitution is modelled from the spec: the
framework substitutes the supplied schema string at the placeholder and
leaves the rest of the template text unchanged. -/
def renderSystemPrompt (s : String) : Option String :=
  if 1 ≤ s.length then some (sysPromptPre ++ s ++ sysPromptSuf) else none

/-! ## The chat prompt template and `messagesToPrompt` (source lines 171-206) -/

/-- The chat template text (source lines 179-187), transcribed verbatim
(braces escaped).  Note the two-space indentation of the template literal
inside each segment. -/
def chatTemplateText : String :=
  "\x7b\x7b#messages\x7d\x7d\x7b\x7b#system\x7d\x7d<|begin_of_text|><|start_header_id|>system<|end_header_id|>\n  \n  \x7b\x7bsystem\x7d\x7d<|eot_id|>\x7b\x7b/system\x7d\x7d\x7b\x7b#user\x7d\x7d<|start_header_id|>user<|end_header_id|>\n  \n  \x7b\x7buser\x7d\x7d<|eot_id|>\x7b\x7b/user\x7d\x7d\x7b\x7b#assistant\x7d\x7d<|start_header_id|>assistant<|end_header_id|>\n  \n  \x7b\x7bassistant\x7d\x7d<|eot_id|>\x7b\x7b/assistant\x7d\x7d\x7b\x7b/messages\x7d\x7d<|start_header_id|>assistant<|end_header_id|>\n  \n  "

/-- Literal text of the system segment up to its text slot. -/
def sysChunk : String :=
  "<|begin_of_text|><|start_header_id|>system<|end_header_id|>\n  \n  "

/-- Literal text of the user segment up to its text slot. -/
def userChunk : String :=
  "<|start_header_id|>user<|end_header_id|>\n  \n  "

/-- Literal text of the assistant segment up to its text slot; also the
trailing assistant header after the messages section. -/
def asstChunk : String :=
  "<|start_header_id|>assistant<|end_header_id|>\n  \n  "

/-- The end-of-turn token closing each segment. -/
def eotTok : String := "<|eot_id|>"

/-- One record of the `messages` array handed to the template: three lists
of strings, one per role section. -/
structure MsgRecord where
  system : List String
  user : List String
  assistant : List String
deriving DecidableEq

/-- Concatenation of a list of strings. -/
def concatAll : List String → String
  | [] => ""
  | s :: rest => s ++ concatAll rest

/-- Rendering of one `messages` record.  Modelled from the spec: the
framework's template engine renders the `system`, `user` and `assistant`
sub-sections in template order, once per element of the corresponding list,
substituting the element at the text slot. -/
def renderRecord (r : MsgRecord) : String :=
  concatAll (r.system.map fun t => sysChunk ++ t ++ eotTok) ++
  concatAll (r.user.map fun t => userChunk ++ t ++ eotTok) ++
  concatAll (r.assistant.map fun t => asstChunk ++ t ++ eotTok)

/-- The record built for one message inside `messagesToPrompt`
(source lines 198-202): each of the three lists is the singleton of the
message text when the role matches, else empty. -/
def toRecord (m : Message) : MsgRecord :=
  { system := if m.role = "system" then [m.text] else []
    user := if m.role = "user" then [m.text] else []
    assistant := if m.role = "assistant" then [m.text] else [] }

/-- `chatLLM.config.messagesToPrompt` (source lines 196-204): map each
message to its record and render the template over the records, ending with
the trailing assistant header. -/
def messagesToPrompt (msgs : List Message) : String :=
  concatAll ((msgs.map toRecord).map renderRecord) ++ asstChunk

/-- The segment a single message of a known role contributes to the prompt
(the shape the spec describes: role-delimiter tokens around the text). -/
def roleSegment (m : Message) : String :=
  if m.role = "system" then sysChunk ++ m.text ++ eotTok
  else if m.role = "user" then userChunk ++ m.text ++ eotTok
  else if m.role = "assistant" then asstChunk ++ m.text ++ eotTok
  else ""

/-! ## The structured-output driver and `CustomGermanAgent._run`
(source lines 91-122) -/

/-- The arguments `_run` hands to `driver.generate` (source lines 96-110):
the message list `[...this.memory.messages, input.message]` and the retry
bound `options?.maxRetries`. -/
structure GenerateCall where
  messages : List Message
  maxRetries : Nat
deriving DecidableEq

/-- The call `_run` constructs for the driver from the current memory, the
input message and the run option. -/
def runCall (mem : List Message) (input : Message) (maxRetries : Nat) : GenerateCall :=
  { messages := mem ++ [input], maxRetries := maxRetries }

/-- Retry loop of the structured-output driver.  Modelled from the spec:
the driver returns a parsed result matching the response schema, retrying
generation on parse failure up to the configured bound.  `attempts i` is the
raw model response of the i-th chat-model request; the result pairs the
parsed value (`none` when every allowed attempt failed validation) with the
number of chat-model requests issued. -/
def generateAttempts (attempts : Nat → Json) : Nat → Nat → Option Parsed × Nat
  | 0, _ => (none, 0)
  | fuel + 1, i =>
      match parseResponse (attempts i) with
      | some p => (some p, 1)
      | none =>
          let rest := generateAttempts attempts fuel (i + 1)
          (rest.1, rest.2 + 1)

/-- The driver's `generate`: one initial request plus at most `maxRetries`
retries on parse failure.  Modelled from the spec (see `generateAttempts`). -/
def driverGenerate (attempts : Nat → Json) (maxRetries : Nat) : Option Parsed × Nat :=
  generateAttempts attempts (maxRetries + 1) 0

/-- The value `_run` returns (source lines 118-121): the assistant message
and the parsed state. -/
structure RunOutput where
  message : Message
  state : Parsed
deriving DecidableEq

/-- `CustomGermanAgent._run` (source lines 91-122).  `llm` is the external
chat model: given the generate call, it yields the raw response of each
attempt.  The result is the returned `RunOutput` (`none` when the driver
fails and the run throws), the memory after the run (the framework memory's
`add` appends, modelled from the spec), and the number of chat-model
requests issued.  On driver failure the method throws before `memory.add`,
so the memory is returned unchanged. -/
def agentRun (llm : GenerateCall → Nat → Json) (mem : List Message)
    (input : Message) (maxRetries : Nat) :
    Option RunOutput × List Message × Nat :=
  let call := runCall mem input maxRetries
  match driverGenerate (llm call) call.maxRetries with
  | (none, n) => (none, mem, n)
  | (some parsed, n) =>
      let result := mkAssistantMessage parsed.final_answer
      (some { message := result, state := parsed }, mem ++ [result], n)

/-! ## The two scripts (source lines 226-270 and 288-306) -/

/-- Observable actions of a script run, in program order. -/
inductive Action where
  | readerWrite (tag text : String)
  | consoleInfo (text : String)
  | consoleError (text : String)
  | loggerError (text : String)
  | processExit (code : Nat)
deriving DecidableEq

/-- The user message text of script 1 (source line 227). -/
def scriptOneUserText : String := "What is your name and why is the sky blue?"

/-- An event delivered to script 1's `observe` callbacks while the run is
awaited (source lines 233-264): the agent emitter's `start`, `error`,
`retry` and `update` events, the three `BaseLLMEvents` names the `*.*`
matcher handles for events created by `chatLLM`, and `other` for any event
none of the handlers act on (an unmatched LLM event name or a foreign
creator). -/
inductive RunEvent where
  | agentStart
  | agentError (err : String)
  | agentRetry
  | agentUpdate (key value : String)
  | llmStart (input : String)
  | llmSuccess (finalResult : String)
  | llmError (data : String)
  | other
deriving DecidableEq

/-- The writes script 1's `observe` block performs for one event (source
lines 233-264): the agent `error` handler writes the framework dump to the
reader, the `*.*` matcher prints LLM input/output via `console.info` and
writes a chatLLM `error` event's payload via `console.error(data)`
(lines 258-260). -/
def observeActions (dump : String → String) : RunEvent → List Action
  | .agentStart => [Action.readerWrite "Agent 🤖 : " "starting new iteration"]
  | .agentError err => [Action.readerWrite "Agent 🤖 : " (dump err)]
  | .agentRetry => [Action.readerWrite "Agent 🤖 : " "retrying the action..."]
  | .agentUpdate key value => [Action.readerWrite ("Agent (" ++ key ++ ") 🤖 : ") value]
  | .llmStart input => [Action.consoleInfo "LLM Input", Action.consoleInfo input]
  | .llmSuccess finalResult => [Action.consoleInfo "LLM Output", Action.consoleInfo finalResult]
  | .llmError data => [Action.consoleError data]
  | .other => []

/-- All writes of the `observe` block over the events of a run, in
emission order. -/
def observerActions (dump : String → String) : List RunEvent → List Action
  | [] => []
  | ev :: rest => observeActions dump ev ++ observerActions dump rest

/-- Script 1's try/catch/finally (source lines 226-270): print the message,
await the single agent run — during which the `observe` block (lines
233-264) writes for each emitted event — then on success write the response
text, on a caught error log `FrameworkError.ensure(error).dump()` (the dump
utility is the framework's, passed in abstractly), and in `finally` call
`process.exit(0)` on both paths.  `events` are the events emitted during
the run, `runResult` its outcome. -/
def scriptOneActions (dump : String → String) (events : List RunEvent)
    (runResult : Except String RunOutput) : List Action :=
  Action.consoleInfo ("Message:\n" ++ scriptOneUserText ++ "\n") ::
  (observerActions dump events ++
   (match runResult with
    | .ok response => [Action.readerWrite "Agent 🤖 : " response.message.text]
    | .error e => [Action.loggerError (dump e)])
   ++ [Action.processExit 0])

/-- Script 2's try/catch (source lines 288-306): print the prompt, await
the single agent run, on success print the result text, on a caught error
`console.error` the framework dump.  No `process.exit` call exists in
script 2. -/
def scriptTwoActions (dump : String → String) (prompt : String)
    (runResult : Except String String) : List Action :=
  Action.consoleInfo ("User 👤 : " ++ prompt) ::
  (match runResult with
   | .ok text => [Action.consoleInfo ("Agent 🤖 : " ++ text)]
   | .error e => [Action.consoleError (dump e)])

/-- The exit code of a `process.exit` action. -/
def exitOf : Action → Option Nat
  | .processExit c => some c
  | _ => none

/-- The message of an error-channel write (logger.error or console.error). -/
def errOf : Action → Option String
  | .loggerError t => some t
  | .consoleError t => some t
  | _ => none

/-- The message of a logger.error write. -/
def logOf : Action → Option String
  | .loggerError t => some t
  | _ => none

/-- The process exit code produced by a list of actions: the first
`process.exit` call wins; a process that never calls `process.exit` exits
with the Node.js default code 0 once the event loop drains. -/
def exitCode (as : List Action) : Nat :=
  (as.filterMap exitOf).headD 0

/-- The error messages a script writes (logger.error or console.error). -/
def errorLogs (as : List Action) : List String :=
  as.filterMap errOf

/-- The error messages a script writes through the logger. -/
def loggerLogs (as : List Action) : List String :=
  as.filterMap logOf

/-- The payloads of the chatLLM `error` events among a run's events. -/
def llmErrorData : List RunEvent → List String :=
  List.filterMap fun ev =>
    match ev with
    | .llmError data => some data
    | _ => none

/-! ## Concrete fixtures for counterexamples and witnesses -/

/-- A raw model response that satisfies the response schema. -/
def goodResponse : Json :=
  Json.obj [("thought", Json.str "t"), ("final_answer", Json.str "a")]

/-- A chat model that always answers with a schema-valid response. -/
def constLLM : GenerateCall → Nat → Json :=
  fun _ _ => goodResponse

/-- A chat model whose first response is not a JSON object (so it fails
schema validation) and whose second response is valid: with one retry
configured, the driver issues two chat-model requests. -/
def retryLLM : GenerateCall → Nat → Json :=
  fun _ i => if i = 0 then Json.null else goodResponse

/-- A concrete user message. -/
def userMsg : Message := { role := "user", text := "hi" }

/-! ## Shared lemmas -/

set_option maxRecDepth 100000 in
/-- The pre/suffix decomposition of the system prompt template reconstructs
the verbatim template text. -/
theorem sysPrompt_anchor :
    sysPromptPre ++ schemaPlaceholder ++ sysPromptSuf = systemPromptTemplateText := by
  rfl

set_option maxRecDepth 100000 in
/-- The literal chunks used by the chat-template model reconstruct the
verbatim chat template text. -/
theorem chatTemplate_anchor :
    "\x7b\x7b#messages\x7d\x7d\x7b\x7b#system\x7d\x7d" ++ sysChunk ++
      "\x7b\x7bsystem\x7d\x7d" ++ eotTok ++
      "\x7b\x7b/system\x7d\x7d\x7b\x7b#user\x7d\x7d" ++ userChunk ++
      "\x7b\x7buser\x7d\x7d" ++ eotTok ++
      "\x7b\x7b/user\x7d\x7d\x7b\x7b#assistant\x7d\x7d" ++ asstChunk ++
      "\x7b\x7bassistant\x7d\x7d" ++ eotTok ++
      "\x7b\x7b/assistant\x7d\x7d\x7b\x7b/messages\x7d\x7d" ++ asstChunk
    = chatTemplateText := by
  rfl

/-- A non-empty string has length at least one. -/
theorem one_le_length_of_ne_empty (s : String) (h : s ≠ "") : 1 ≤ s.length := by
  cases s with
  | mk data =>
    cases data with
    | nil => exact absurd rfl h
    | cons c cs => simp [String.length]

/-- The record of a single message renders to exactly its role segment. -/
theorem renderRecord_toRecord (m : Message) : renderRecord (toRecord m) = roleSegment m := by
  obtain ⟨r, t⟩ := m
  simp only [renderRecord, toRecord, roleSegment]
  by_cases hs : r = "system"
  · subst hs; simp [concatAll]
  · by_cases hu : r = "user"
    · subst hu; simp [concatAll]
    · by_cases ha : r = "assistant"
      · subst ha; simp [concatAll]
      · simp [hs, hu, ha, concatAll]

/-- The rendered prompt is the concatenation of the per-message role
segments followed by the trailing assistant header. -/
theorem messagesToPrompt_eq (msgs : List Message) :
    messagesToPrompt msgs = concatAll (msgs.map roleSegment) ++ asstChunk := by
  unfold messagesToPrompt
  congr 1
  rw [List.map_map]
  induction msgs with
  | nil => rfl
  | cons m rest ih =>
    simp only [List.map_cons, concatAll, Function.comp, renderRecord_toRecord, ih]

/-- The retry loop issues at most `fuel` chat-model requests. -/
theorem generateAttempts_le (attempts : Nat → Json) (fuel : Nat) :
    ∀ i, (generateAttempts attempts fuel i).2 ≤ fuel := by
  induction fuel with
  | zero => intro i; simp [generateAttempts]
  | succ n ih =>
    intro i
    simp only [generateAttempts]
    cases hp : parseResponse (attempts i) with
    | some p => simp
    | none =>
      simp only []
      exact Nat.add_le_add_right (ih (i + 1)) 1

/-- With positive fuel the retry loop issues at least one request. -/
theorem generateAttempts_pos (attempts : Nat → Json) (fuel i : Nat) (h : 1 ≤ fuel) :
    1 ≤ (generateAttempts attempts fuel i).2 := by
  cases fuel with
  | zero => omega
  | succ n =>
    simp only [generateAttempts]
    cases hp : parseResponse (attempts i) with
    | some p => simp
    | none => simp only []; omega

/-- A parsed value returned by the retry loop comes from some attempt that
parses to exactly that value. -/
theorem generateAttempts_sound (attempts : Nat → Json) (fuel : Nat) :
    ∀ i p, (generateAttempts attempts fuel i).1 = some p →
      ∃ j, i ≤ j ∧ j < i + fuel ∧ parseResponse (attempts j) = some p := by
  induction fuel with
  | zero => intro i p h; simp [generateAttempts] at h
  | succ n ih =>
    intro i p h
    simp only [generateAttempts] at h
    cases hp : parseResponse (attempts i) with
    | some q =>
      rw [hp] at h
      simp only [Option.some.injEq] at h
      exact ⟨i, Nat.le_refl i, by omega, by rw [hp, h]⟩
    | none =>
      rw [hp] at h
      simp only [] at h
      obtain ⟨j, hij, hlt, hpj⟩ := ih (i + 1) p h
      exact ⟨j, by omega, by omega, hpj⟩

/-- Schema acceptance coincides with parseability of the response. -/
theorem responseSchemaAccepts_eq (j : Json) :
    responseSchemaAccepts j = (parseResponse j).isSome := by
  cases j with
  | obj fields =>
    simp only [responseSchemaAccepts, parseResponse]
    cases ht : lookupField fields "thought" with
    | none => simp
    | some v =>
      cases hf : lookupField fields "final_answer" with
      | none => cases v <;> simp [isZodString]
      | some w => cases v <;> cases w <;> simp [isZodString]
  | str s => rfl
  | num n => rfl
  | bool b => rfl
  | null => rfl
  | arr elems => rfl

/-- Case description of `agentRun` in terms of the driver result. -/
theorem agentRun_eq_cases (llm : GenerateCall → Nat → Json) (mem : List Message)
    (input : Message) (mr : Nat) :
    agentRun llm mem input mr =
      match driverGenerate (llm (runCall mem input mr)) mr with
      | (none, n) => (none, mem, n)
      | (some p, n) =>
          (some { message := mkAssistantMessage p.final_answer, state := p },
           mem ++ [mkAssistantMessage p.final_answer], n) := by
  unfold agentRun
  rfl

/-- The request count of a run is the driver's request count. -/
theorem agentRun_requests (llm : GenerateCall → Nat → Json) (mem : List Message)
    (input : Message) (mr : Nat) :
    (agentRun llm mem input mr).2.2 = (driverGenerate (llm (runCall mem input mr)) mr).2 := by
  rw [agentRun_eq_cases]
  cases hd : driverGenerate (llm (runCall mem input mr)) mr with
  | mk o n => cases o <;> rfl

/-- The observe block never calls `process.exit`. -/
theorem observer_no_exit (dump : String → String) (events : List RunEvent) :
    (observerActions dump events).filterMap exitOf = [] := by
  induction events with
  | nil => rfl
  | cons ev rest ih =>
    simp only [observerActions, List.filterMap_append, ih, List.append_nil]
    cases ev <;> rfl

/-- The observe block never writes through the logger. -/
theorem observer_no_logger (dump : String → String) (events : List RunEvent) :
    (observerActions dump events).filterMap logOf = [] := by
  induction events with
  | nil => rfl
  | cons ev rest ih =>
    simp only [observerActions, List.filterMap_append, ih, List.append_nil]
    cases ev <;> rfl

/-- The observe block's error-channel writes are exactly the payloads of
the chatLLM error events, in order. -/
theorem observer_error_logs (dump : String → String) (events : List RunEvent) :
    (observerActions dump events).filterMap errOf = llmErrorData events := by
  induction events with
  | nil => rfl
  | cons ev rest ih =>
    simp only [observerActions, List.filterMap_append, ih]
    cases ev <;> simp [observeActions, llmErrorData, errOf, List.filterMap_cons]

/-- Script 1's last action is always `process.exit(0)`. -/
theorem scriptOne_last_exit (dump : String → String) (events : List RunEvent)
    (r : Except String RunOutput) :
    (scriptOneActions dump events r).getLast? = some (Action.processExit 0) := by
  unfold scriptOneActions
  rw [← List.cons_append, List.getLast?_concat]

/-! ## Claim theorems -/

/-- Claim C1, counterexample: the response schema of `_run` uses plain
`z.string()` for both fields, so the response whose `thought` and
`final_answer` are both the empty string passes validation.  This refutes
the claim that the schema requires the fields to be non-empty. -/
theorem empty_fields_accepted_by_response_schema :
    responseSchemaAccepts
      (Json.obj [("thought", Json.str ""), ("final_answer", Json.str "")]) = true := by
  rfl

/-- Claim C1 (amended): the response schema requires string fields `thought`
and `final_answer` to be present (empty strings are accepted); a response
missing either field fails validation and never parses, so it cannot be the
parsed result of `_run`. -/
theorem response_missing_field_rejected (fields : List (String × Json))
    (h : lookupField fields "thought" = none ∨ lookupField fields "final_answer" = none) :
    responseSchemaAccepts (Json.obj fields) = false ∧
    parseResponse (Json.obj fields) = none := by
  constructor
  · rcases h with h | h
    · simp [responseSchemaAccepts, h]
    · simp [responseSchemaAccepts, h]
  · rcases h with h | h
    · simp [parseResponse, h]
    · cases ht : lookupField fields "thought" with
      | none => simp [parseResponse, ht]
      | some v => cases v <;> simp [parseResponse, ht, h]

/-- Claim C1, witness: a response carrying only `final_answer` is rejected. -/
theorem response_missing_field_rejected_witness :
    responseSchemaAccepts (Json.obj [("final_answer", Json.str "x")]) = false ∧
    parseResponse (Json.obj [("final_answer", Json.str "x")]) = none :=
  response_missing_field_rejected [("final_answer", Json.str "x")] (Or.inl rfl)

/-- Claim C2: for every non-empty schema string `s`, rendering the system
prompt template yields the template text with `s` substituted verbatim at
the placeholder (between the code-fence markers) and nothing else altered:
the result is the literal text before the placeholder, then `s`, then the
literal text after it, and those two literals reassemble the verbatim
template text around the placeholder. -/
theorem system_prompt_renders_schema_verbatim (s : String) (h : s ≠ "") :
    renderSystemPrompt s = some (sysPromptPre ++ s ++ sysPromptSuf) ∧
    sysPromptPre ++ schemaPlaceholder ++ sysPromptSuf = systemPromptTemplateText := by
  refine ⟨?_, sysPrompt_anchor⟩
  unfold renderSystemPrompt
  rw [if_pos (one_le_length_of_ne_empty s h)]

/-- Claim C2, witness at the schema string "x". -/
theorem system_prompt_renders_schema_verbatim_witness :
    renderSystemPrompt "x" = some (sysPromptPre ++ "x" ++ sysPromptSuf) ∧
    sysPromptPre ++ schemaPlaceholder ++ sysPromptSuf = systemPromptTemplateText :=
  system_prompt_renders_schema_verbatim "x" (by decide)

/-- Claim C3: for messages whose roles are system, user or assistant,
`messagesToPrompt` renders the concatenation, in input order, of each
message's role-delimited segment (its role header, its text, then the
end-of-turn token; the system header additionally carries the
begin-of-text token), followed by the trailing assistant header. -/
theorem messages_to_prompt_role_segments_in_order (msgs : List Message)
    (_h : ∀ m ∈ msgs, m.role = "system" ∨ m.role = "user" ∨ m.role = "assistant") :
    messagesToPrompt msgs = concatAll (msgs.map roleSegment) ++ asstChunk :=
  messagesToPrompt_eq msgs

/-- Claim C3, witness on a two-message conversation. -/
theorem messages_to_prompt_role_segments_in_order_witness :
    messagesToPrompt [{ role := "system", text := "s" }, { role := "user", text := "u" }] =
      concatAll
        ([{ role := "system", text := "s" }, { role := "user", text := "u" }].map roleSegment)
        ++ asstChunk :=
  messages_to_prompt_role_segments_in_order
    [{ role := "system", text := "s" }, { role := "user", text := "u" }] (by decide)

/-- Claim C4: both scripts produce process exit code 0 on every outcome of
the single agent run and whatever events its observers see: script 1 calls
`process.exit(0)` in its `finally` on the success and the caught-error path
alike (and its observe block never calls `process.exit`), and script 2
never calls `process.exit`, so the process exits with the default code 0
after a caught error as well; no distinct failure exit code is ever set. -/
theorem scripts_exit_code_zero (dump : String → String) (events : List RunEvent)
    (r1 : Except String RunOutput) (p : String) (r2 : Except String String) :
    exitCode (scriptOneActions dump events r1) = 0 ∧
    exitCode (scriptTwoActions dump p r2) = 0 := by
  constructor
  · cases r1 <;>
      simp [exitCode, scriptOneActions, List.filterMap_cons, List.filterMap_append,
            observer_no_exit, exitOf]
  · cases r2 <;> rfl

/-- Claim C5: in each script an error raised during the agent run is caught
exactly once, at the single top-level catch, which writes the framework
dump of the error exactly once (script 1 to the logger — its only logger
write — and script 2 to the console); a successful run writes no caught
error.  Every other error-channel write of script 1 is its observe block
echoing the payloads of chatLLM `error` events (lines 258-260), pure
observation that catches nothing, retries nothing and recovers nothing:
error-channel output is exactly those event payloads plus, on a failed run,
the single dump of the caught error. -/
theorem single_catch_logs_framework_dump (dump : String → String)
    (events : List RunEvent) (p e t : String) (out : RunOutput) :
    loggerLogs (scriptOneActions dump events (Except.error e)) = [dump e] ∧
    loggerLogs (scriptOneActions dump events (Except.ok out)) = [] ∧
    errorLogs (scriptOneActions dump events (Except.error e)) =
      llmErrorData events ++ [dump e] ∧
    errorLogs (scriptOneActions dump events (Except.ok out)) = llmErrorData events ∧
    errorLogs (scriptTwoActions dump p (Except.error e)) = [dump e] ∧
    errorLogs (scriptTwoActions dump p (Except.ok t)) = [] := by
  refine ⟨?_, ?_, ?_, ?_, rfl, rfl⟩
  · simp [loggerLogs, scriptOneActions, List.filterMap_cons, List.filterMap_append,
          observer_no_logger, logOf]
  · simp [loggerLogs, scriptOneActions, List.filterMap_cons, List.filterMap_append,
          observer_no_logger, logOf]
  · simp [errorLogs, scriptOneActions, List.filterMap_cons, List.filterMap_append,
          observer_error_logs, errOf]
  · simp [errorLogs, scriptOneActions, List.filterMap_cons, List.filterMap_append,
          observer_error_logs, errOf]

/-- Claim C6, counterexample: with a configured retry bound of 1 and a
model whose first response fails schema validation, the single run issues
two chat-model requests, not one. -/
theorem retry_run_issues_two_model_requests :
    (agentRun retryLLM [] userMsg 1).2.2 = 2 ∧ (agentRun retryLLM [] userMsg 1).2.2 ≠ 1 := by
  constructor
  · rfl
  · decide

/-- Claim C6 (amended): each script performs a single agent-run invocation
per process invocation and then the process exits — script 1's last action
is `process.exit(0)` on every outcome and every event trace, and script 2
exits with the default code 0.  The single invocation is not limited to one
remote model request: script 1's custom-agent run issues at least one and
at most `maxRetries + 1` chat-model requests, exceeding one when a parse
failure triggers a retry. -/
theorem single_run_bounded_model_requests (llm : GenerateCall → Nat → Json)
    (mem : List Message) (input : Message) (mr : Nat) (dump : String → String)
    (events : List RunEvent) (r : Except String RunOutput)
    (p : String) (r2 : Except String String) :
    1 ≤ (agentRun llm mem input mr).2.2 ∧
    (agentRun llm mem input mr).2.2 ≤ mr + 1 ∧
    (scriptOneActions dump events r).getLast? = some (Action.processExit 0) ∧
    exitCode (scriptTwoActions dump p r2) = 0 := by
  refine ⟨?_, ?_, scriptOne_last_exit dump events r, ?_⟩
  · rw [agentRun_requests]
    exact generateAttempts_pos _ _ _ (by omega)
  · rw [agentRun_requests]
    exact generateAttempts_le _ _ _
  · cases r2 <;> rfl

/-- Claim C7: `_run` hands the driver the retry bound `options.maxRetries`
and the message list `[...memory.messages, input.message]`; the run makes at
most `maxRetries + 1` generation attempts; when the driver succeeds, the
run's result is exactly the driver's parsed result, which comes from some
attempt (within the bound) that parses under the response schema; when the
driver exhausts its attempts the run fails. -/
theorem run_passes_max_retries_to_driver (llm : GenerateCall → Nat → Json)
    (mem : List Message) (input : Message) (mr : Nat) :
    (runCall mem input mr).maxRetries = mr ∧
    (runCall mem input mr).messages = mem ++ [input] ∧
    (agentRun llm mem input mr).2.2 ≤ mr + 1 ∧
    (∀ p, (driverGenerate (llm (runCall mem input mr)) mr).1 = some p →
      (agentRun llm mem input mr).1 =
        some { message := mkAssistantMessage p.final_answer, state := p } ∧
      ∃ j, j ≤ mr ∧ parseResponse (llm (runCall mem input mr) j) = some p) ∧
    ((driverGenerate (llm (runCall mem input mr)) mr).1 = none →
      (agentRun llm mem input mr).1 = none) := by
  refine ⟨rfl, rfl, ?_, ?_, ?_⟩
  · rw [agentRun_requests]
    exact generateAttempts_le _ _ _
  · intro p hp
    constructor
    · rw [agentRun_eq_cases]
      cases hd : driverGenerate (llm (runCall mem input mr)) mr with
      | mk o n =>
        rw [hd] at hp
        cases o with
        | none => exact Option.noConfusion hp
        | some q =>
          simp only [Option.some.injEq] at hp
          subst hp
          rfl
    · obtain ⟨j, hj0, hjlt, hpj⟩ :=
        generateAttempts_sound (llm (runCall mem input mr)) (mr + 1) 0 p hp
      exact ⟨j, by omega, hpj⟩
  · intro hnone
    rw [agentRun_eq_cases]
    cases hd : driverGenerate (llm (runCall mem input mr)) mr with
    | mk o n =>
      rw [hd] at hnone
      cases o with
      | none => rfl
      | some q => exact Option.noConfusion hnone

/-- Claim C7, witness: with a model that always answers a schema-valid
response and retry bound 0, the run returns the driver's parsed result. -/
theorem run_passes_max_retries_to_driver_witness :
    (agentRun constLLM [] userMsg 0).1 =
      some { message := mkAssistantMessage "a",
             state := { thought := "t", final_answer := "a" } } ∧
    ∃ j, j ≤ 0 ∧ parseResponse (constLLM (runCall [] userMsg 0) j) =
      some { thought := "t", final_answer := "a" } :=
  (run_passes_max_retries_to_driver constLLM [] userMsg 0).2.2.2.1
    { thought := "t", final_answer := "a" } rfl

/-- Claim C8: a successful `_run` appends exactly one message to the
memory, the assistant message whose text is the parsed `final_answer`; the
input message is not added; a failing run (driver error) leaves the memory
unchanged. -/
theorem run_memory_effect (llm : GenerateCall → Nat → Json) (mem : List Message)
    (input : Message) (mr : Nat) :
    ((agentRun llm mem input mr).1 = none → (agentRun llm mem input mr).2.1 = mem) ∧
    (∀ out, (agentRun llm mem input mr).1 = some out →
      (agentRun llm mem input mr).2.1 = mem ++ [mkAssistantMessage out.state.final_answer] ∧
      out.message = mkAssistantMessage out.state.final_answer) := by
  rw [agentRun_eq_cases]
  cases hd : driverGenerate (llm (runCall mem input mr)) mr with
  | mk o n =>
    cases o with
    | none =>
      exact ⟨fun _ => rfl, fun out hout => Option.noConfusion hout⟩
    | some p =>
      refine ⟨fun hnone => Option.noConfusion hnone, fun out hout => ?_⟩
      simp only [Option.some.injEq] at hout
      rw [← hout]
      exact ⟨rfl, rfl⟩

/-- Claim C8, witness: a successful concrete run appends the assistant
answer to the empty memory. -/
theorem run_memory_effect_witness :
    (agentRun constLLM [] userMsg 0).2.1 = [mkAssistantMessage "a"] ∧
    mkAssistantMessage "a" = mkAssistantMessage "a" :=
  (run_memory_effect constLLM [] userMsg 0).2
    { message := mkAssistantMessage "a", state := { thought := "t", final_answer := "a" } } rfl

/-- Claim C9: a successful run returns an assistant-role message whose text
is the parsed `final_answer`, and its state is exactly the driver's parsed
result. -/
theorem run_output_shape (llm : GenerateCall → Nat → Json) (mem : List Message)
    (input : Message) (mr : Nat) (out : RunOutput)
    (h : (agentRun llm mem input mr).1 = some out) :
    out.message.role = "assistant" ∧
    out.message.text = out.state.final_answer ∧
    (driverGenerate (llm (runCall mem input mr)) mr).1 = some out.state := by
  rw [agentRun_eq_cases] at h
  cases hd : driverGenerate (llm (runCall mem input mr)) mr with
  | mk o n =>
    rw [hd] at h
    cases o with
    | none => exact Option.noConfusion h
    | some p =>
      simp only [Option.some.injEq] at h
      rw [← h]
      exact ⟨rfl, rfl, rfl⟩

/-- Claim C9, witness at a concrete successful run. -/
theorem run_output_shape_witness :
    (mkAssistantMessage "a").role = "assistant" ∧
    (mkAssistantMessage "a").text = "a" ∧
    (driverGenerate (constLLM (runCall [] userMsg 0)) 0).1 =
      some { thought := "t", final_answer := "a" } :=
  run_output_shape constLLM [] userMsg 0
    { message := mkAssistantMessage "a", state := { thought := "t", final_answer := "a" } } rfl

/-- Claim C10: inside `messagesToPrompt`, a message of role system, user or
assistant maps to a record in which exactly the matching list is the
singleton of its text and the other two are empty; a message of any other
role maps to three empty lists and its record renders to the empty string,
contributing no segment to the prompt. -/
theorem message_role_record_mapping (m : Message) :
    (m.role = "system" → toRecord m = { system := [m.text], user := [], assistant := [] }) ∧
    (m.role = "user" → toRecord m = { system := [], user := [m.text], assistant := [] }) ∧
    (m.role = "assistant" → toRecord m = { system := [], user := [], assistant := [m.text] }) ∧
    (m.role ≠ "system" → m.role ≠ "user" → m.role ≠ "assistant" →
      toRecord m = { system := [], user := [], assistant := [] } ∧
      renderRecord (toRecord m) = "") := by
  refine ⟨?_, ?_, ?_, ?_⟩
  · intro h; simp [toRecord, h]
  · intro h; simp [toRecord, h]
  · intro h; simp [toRecord, h]
  · intro h1 h2 h3
    have ht : toRecord m = { system := [], user := [], assistant := [] } := by
      simp [toRecord, h1, h2, h3]
    refine ⟨ht, ?_⟩
    rw [ht]
    rfl

/-- Claim C10, witness: a message of the unknown role "tool" yields three
empty lists and an empty rendered segment. -/
theorem message_role_record_mapping_witness :
    toRecord { role := "tool", text := "x" } = { system := [], user := [], assistant := [] } ∧
    renderRecord (toRecord { role := "tool", text := "x" }) = "" :=
  (message_role_record_mapping { role := "tool", text := "x" }).2.2.2
    (by decide) (by decide) (by decide)

end BeeExample
